import Mathlib

/-!
Verification development for an email-assistant backend.

The development shallowly embeds the session store (`backend/app/models.py`),
the credential manager (`backend/app/auth.py`) and the chatbot endpoint with
its handlers (`backend/app/chatbot.py`, `backend/app/ai.py`,
`backend/app/email.py`).  Pure Python functions become Lean functions;
the sessions JSON file becomes an explicit `FileState` value threaded through
the store primitives; calls to external collaborators (Google OAuth token
endpoint, Gmail API, Groq text-generation API) become oracle fields of
explicit environment records, with fallible calls returning `Except`.
Datetimes are modelled as integers (comparison is all the code uses).
-/

namespace EmailAssistant

/-- Session record, mirroring `UserSession` in `backend/app/models.py`.
`refresh_token` is `Optional[str]` in the source; datetimes are integers here. -/
structure UserSession where
  session_id : String
  user_email : String
  access_token : String
  refresh_token : Option String
  expires_at : Int
  created_at : Int
deriving Repr, DecidableEq

/-- State of the `sessions.json` file.  `missing` is an absent file,
`unreadable` an `IOError` on open/read, `invalidJson` a `json.JSONDecodeError`;
`valid` holds the parsed mapping as an insertion-ordered association list
(Python dict semantics; keys are unique in every state the code itself
produces). -/
inductive FileState where
  | missing
  | unreadable
  | invalidJson
  | valid (sessions : List (String × UserSession))
deriving Repr, DecidableEq

/-- Python `dict.get`: first binding of the key, if any. -/
def dictGet : List (String × UserSession) → String → Option UserSession
  | [], _ => none
  | p :: t, k => if p.1 == k then some p.2 else dictGet t k

/-- Python `d[k] = v`: replace the binding in place if the key is present,
append otherwise (dict insertion-order semantics). -/
def dictInsert : List (String × UserSession) → String → UserSession → List (String × UserSession)
  | [], k, v => [(k, v)]
  | p :: t, k, v => if p.1 == k then (k, v) :: t else p :: dictInsert t k v

/-- `load_sessions` (`models.py`): returns `{}` when the file does not exist and
when opening/parsing it fails (`json.JSONDecodeError`, `IOError` are caught). -/
def load_sessions : FileState → List (String × UserSession)
  | .missing => []
  | .unreadable => []
  | .invalidJson => []
  | .valid sessions => sessions

/-- `get_session` (`models.py`): dictionary lookup over the loaded file. -/
def get_session (fs : FileState) (session_id : String) : Option UserSession :=
  dictGet (load_sessions fs) session_id

/-- `create_session` (`models.py`): load, assign `sessions[id] = record`, save.
There is no duplicate check; an existing binding is overwritten. -/
def create_session (fs : FileState) (session : UserSession) : FileState :=
  .valid (dictInsert (load_sessions fs) session.session_id session)

/-- `update_session` (`models.py`): raises `ValueError` when the id is not in
the loaded mapping, otherwise overwrites the full record and saves. -/
def update_session (fs : FileState) (session : UserSession) : Except String FileState :=
  let sessions := load_sessions fs
  if sessions.any (fun p => p.1 == session.session_id) then
    .ok (.valid (dictInsert sessions session.session_id session))
  else
    .error ("Session " ++ session.session_id ++ " not found")

/-- `get_all_sessions` (`models.py`): the whole loaded mapping. -/
def get_all_sessions (fs : FileState) : List (String × UserSession) :=
  load_sessions fs

/-- Python truthiness of an optional string (`None` and `""` are falsy). -/
def truthyOptStr : Option String → Bool
  | none => false
  | some s => !(s == "")

/-- Python truthiness of an optional integer (`None` and `0` are falsy). -/
def truthyOptNat : Option Nat → Bool
  | none => false
  | some n => !(n == 0)

/-- The `google.oauth2.credentials.Credentials` object as the code observes it:
its token, its refresh token, and the value of its `expired` property. -/
structure Credentials where
  token : String
  refresh_token : Option String
  expired : Bool
deriving Repr, DecidableEq

/-- Outcome of `credentials.refresh(Request())` against the identity provider.
On success the provider returns a new access token, optionally a rotated
refresh token, and the new token's expiry. -/
inductive RefreshOutcome where
  | failure (msg : String)
  | success (newToken : String) (issuedRefreshToken : Option String) (newExpiry : Int)
deriving Repr, DecidableEq

/-- Environment of `get_credentials`: the value the OAuth library computes for
`credentials.expired`, and the identity provider's response to a refresh. -/
structure AuthEnv where
  credsExpired : Bool
  refresh : RefreshOutcome
deriving Repr, DecidableEq

/-- `get_credentials` (`auth.py` lines 240-268).  Returns the resolved
credential (or `none`) together with the resulting store state.  On refresh,
per the OAuth client's `refresh_grant`, the credential object keeps its old
refresh token when the provider response omits one; the write-back copies
`credentials.token` into `access_token`, conditionally overwrites
`refresh_token` (Python truthiness guard), and does not touch `expires_at`.
An exception anywhere in the refresh block (including `update_session`'s
`ValueError`) is caught and yields `none` with the store unchanged. -/
def get_credentials (env : AuthEnv) (fs : FileState) (session_id : String) (now : Int) :
    Option Credentials × FileState :=
  match get_session fs session_id with
  | none => (none, fs)
  | some session =>
    if session.expires_at < now then (none, fs)
    else
      let credentials : Credentials :=
        { token := session.access_token
          refresh_token := session.refresh_token
          expired := env.credsExpired }
      if credentials.expired then
        match env.refresh with
        | .failure _ => (none, fs)
        | .success newToken issuedRefreshToken _newExpiry =>
          let credentials' : Credentials :=
            { token := newToken
              refresh_token := issuedRefreshToken.orElse (fun _ => credentials.refresh_token)
              expired := false }
          let session' : UserSession :=
            { session with
              access_token := credentials'.token
              refresh_token :=
                if truthyOptStr credentials'.refresh_token then credentials'.refresh_token
                else session.refresh_token }
          match update_session fs session' with
          | .ok fs' => (some credentials', fs')
          | .error _ => (none, fs)
      else
        (some credentials, fs)

/-- Python `str.lower()` (ASCII case folding), written over the character list
so that concrete runs reduce definitionally. -/
def strLower (s : String) : String :=
  ⟨s.toList.map Char.toLower⟩

/-- Whitespace stripped by Python `str.strip()`. -/
def isPyWhitespace (c : Char) : Bool :=
  c == ' ' || c == '\t' || c == '\n' || c == '\r' || c == '\x0b' || c == '\x0c'

/-- Python `str.strip()`, written over the character list. -/
def strStrip (s : String) : String :=
  ⟨((s.toList.dropWhile isPyWhitespace).reverse.dropWhile isPyWhitespace).reverse⟩

/-- Substring-at-start check on character lists (needle first). -/
def charsStartWith : List Char → List Char → Bool
  | [], _ => true
  | _ :: _, [] => false
  | a :: as, b :: bs => a == b && charsStartWith as bs

/-- Substring occurrence on character lists, Python `needle in hay`. -/
def charsInfix (needle : List Char) : List Char → Bool
  | [] => needle.isEmpty
  | c :: t => charsStartWith needle (c :: t) || charsInfix needle t

/-- Python `needle in hay` on strings. -/
def strIn (needle hay : String) : Bool :=
  charsInfix needle.toList hay.toList

/-- Python `any(word in s for word in words)`. -/
def containsAny (hay : String) (words : List String) : Bool :=
  words.any (fun w => strIn w hay)

/-- Value of a non-empty decimal digit run (`int` on the matched text). -/
def digitsToNat (ds : List Char) : Nat :=
  ds.foldl (fun a c => 10 * a + (c.toNat - 48)) 0

/-- Helper for `digitRuns`: accumulates the current digit run (reversed). -/
def digitRunsAux : List Char → List Char → List (List Char)
  | [], acc => if acc.isEmpty then [] else [acc.reverse]
  | c :: t, acc =>
    if c.isDigit then digitRunsAux t (c :: acc)
    else if acc.isEmpty then digitRunsAux t []
    else acc.reverse :: digitRunsAux t []

/-- Maximal decimal digit runs of a string, left to right:
Python `re.findall(r'\d+', s)`. -/
def digitRuns (s : String) : List (List Char) :=
  digitRunsAux s.toList []

/-- First number of a string: `int(re.findall(r'\d+', s)[0])` when the list of
matches is non-empty. -/
def firstNumber (s : String) : Option Nat :=
  (digitRuns s).head?.map digitsToNat

/-- Parameters of a parsed command (`parameters` dict in `chatbot.py`).
Only the keys the handlers read are modelled. -/
structure Params where
  max_results : Option Nat := none
  email_number : Option Nat := none
  email_id : Option String := none
  sender : Option String := none
  subject_keyword : Option String := none
  email_ids : List String := []
deriving Repr, DecidableEq

/-- Python value found under the model response's `parameters` key, as the
endpoint observes it: a JSON object (its recognized keys modelled by
`Params`), or any non-object JSON value (string, array, number, null, ...).
A non-object value carries the text of the `AttributeError` its `.get` call
raises and of the `TypeError` its item assignment raises, which is all the
code observes of it. -/
inductive ParamsVal where
  | dict (p : Params)
  | nonDict (attrErr : String) (itemErr : String)
deriving Repr, DecidableEq

/-- Top-level JSON value a successful `json.loads` in the intent parse can
produce (`ai.py` line 103): a JSON object with optional `action` and
`parameters` entries, or a non-object value.  A non-string `action` value
compares unequal to every action literal, which the endpoint cannot
distinguish from an unmatched string, so `action` stays an optional string. -/
inductive ModelJson where
  | obj (action : Option String) (parameters : Option ParamsVal)
  | nonObj
deriving Repr, DecidableEq

/-- Reference returned by a Gmail `messages.list` call. -/
structure MsgRef where
  id : String
  threadId : String
deriving Repr, DecidableEq

/-- Message returned by a Gmail `messages.get` call.  `bodyText` abstracts
`decode_email_body` applied to the payload (base64/HTML decoding of the raw
payload is collapsed into the oracle). -/
structure MsgFull where
  id : String
  threadId : Option String
  headers : List (String × String)
  bodyText : String
  snippet : String
deriving Repr, DecidableEq

/-- `get_header` (`email.py`): first header with a case-insensitive name match,
`""` when absent. -/
def get_header (headers : List (String × String)) (name : String) : String :=
  match headers.find? (fun h => strLower h.1 == strLower name) with
  | some h => h.2
  | none => ""

/-- One processed email in a read response (`email_data` dict in
`handle_read_emails`). -/
structure EmailData where
  id : String
  thread_id : Option String
  sender : String
  sender_email : String
  subject : String
  date : String
  summary : String
  snippet : String
deriving Repr, DecidableEq

/-- One generated reply in a reply response. -/
structure ReplyData where
  email_id : String
  original_subject : String
  original_sender : String
  reply : String
deriving Repr, DecidableEq

/-- The `data` field of a `ChatResponse`. -/
inductive RespData where
  | emails (es : List EmailData)
  | replies (rs : List ReplyData)
  | err (msg : String)
  | deletedEmailId (id : String)
deriving Repr, DecidableEq

/-- `ChatResponse` model (`chatbot.py`). -/
structure ChatResponse where
  response : String
  action : Option String := none
  data : Option RespData := none
deriving Repr, DecidableEq

/-- Transport-level failures the endpoint can signal (`HTTPException`). -/
inductive HttpError where
  | unauthorized (detail : String)
  | internal (detail : String)
deriving Repr, DecidableEq

/-- Python `str(HTTPException)`: Starlette renders the status code, a colon
and the detail text. -/
def httpDetail : HttpError → String
  | .unauthorized d => "401: " ++ d
  | .internal d => "500: " ++ d

/-- External calls a chat request can perform, in order, for observing which
collaborators were consulted. -/
inductive CallEv where
  | parseNL (command : String)
  | gmailList (q : Option String) (maxResults : Nat)
  | gmailGet (id : String)
  | gmailDelete (id : String)
deriving Repr, DecidableEq

/-- Environment of a chat request: store state, clock, OAuth library and
identity-provider behaviour, and the Gmail / text-generation collaborators
(each fallible call is an `Except`-valued oracle). -/
structure ChatEnv where
  auth : AuthEnv
  fs : FileState
  now : Int
  parseCommand : Except String ModelJson
  listMessages : Option String → Nat → Except String (List MsgRef)
  getMessage : String → Except String MsgFull
  getMessageMeta : String → Except String MsgFull
  deleteMessage : String → Except String Unit
  groqSummary : String → String → String → Except String String
  groqReply : String → String → String → Except String String
  parseaddr : String → String × String

/-- `parse_natural_language_command` (`ai.py`): the raw `json.loads` result of
the model response — any JSON value — with every model call or JSON-decoding
failure caught and replaced by the well-typed unknown command. -/
def parse_natural_language_command (env : ChatEnv) : ModelJson :=
  match env.parseCommand with
  | .ok v => v
  | .error _ => .obj (some "unknown") (some (.dict {}))

/-- Lines 49-57 of `chatbot.py`: read `action` and `parameters` out of the
parsed command with defaults.  A non-object command makes `.get` raise
`AttributeError`, which the surrounding `except` catches, resetting to
`("unknown", {})`.  A non-object `parameters` *value* is assigned as-is. -/
def resolveParsed (env : ChatEnv) : String × ParamsVal :=
  match parse_natural_language_command env with
  | .obj a p => (a.getD "unknown", p.getD (.dict {}))
  | .nonObj => ("unknown", .dict {})

/-- `generate_email_summary` (`ai.py`): total — every model failure is caught
and replaced by a fallback string. -/
def generate_email_summary (env : ChatEnv) (body subject sender : String) : String :=
  match env.groqSummary body subject sender with
  | .ok s => strStrip s
  | .error _ => "Summary unavailable. Subject: " ++ subject

/-- `generate_email_reply` (`ai.py`): total — every model failure is caught
and replaced by an apology string. -/
def generate_email_reply (env : ChatEnv) (sender subject body : String) : String :=
  match env.groqReply sender subject body with
  | .ok s => strStrip s
  | .error _ =>
    "I apologize, but I'm unable to generate a reply at this time. Please try again later."

/-- `get_gmail_service` (`email.py`): resolve credentials, raise
`HTTPException(401)` when they are absent.  Building the API client itself
performs no mailbox operation; the resolved credential stands for the service
handle.  (The store write-back a refresh may perform is modelled in
`get_credentials`; no claim observes the store after the chat endpoint, so the
handler does not thread it further.) -/
def get_gmail_service (env : ChatEnv) (session_id : String) : Except HttpError Credentials :=
  match get_credentials env.auth env.fs session_id env.now with
  | (none, _) => .error (.unauthorized "Invalid or expired session")
  | (some credentials, _) => .ok credentials

/-- Keyword fallback of `process_chat_message` (`chatbot.py` lines 59-80),
entered when the model-based action is `"unknown"`: nested checks in source
order, with the first decimal number of the message extracted for `read`
(`max_results`) and `delete` (`email_number`).  The number is written into
`parameters` by item assignment (lines 69 and 80), which raises `TypeError`
when the model supplied a non-object `parameters` value; that exception is not
caught until the endpoint's outer handler, so the fallback is `Except`-valued
here. -/
def keywordFallback (user_message : String) (params : ParamsVal) :
    Except String (String × ParamsVal) :=
  if containsAny user_message ["read", "show", "list", "get", "fetch", "display", "see"] then
    if containsAny user_message ["email", "mail", "message", "inbox"] then
      match firstNumber user_message with
      | some n =>
        match params with
        | .dict p => .ok ("read", .dict { p with max_results := some n })
        | .nonDict _ itemErr => .error itemErr
      | none => .ok ("read", params)
    else .ok ("unknown", params)
  else if containsAny user_message ["reply", "respond", "answer", "generate"] then
    if containsAny user_message ["email", "mail", "message"] then
      .ok ("reply", params)
    else .ok ("unknown", params)
  else if containsAny user_message ["delete", "remove", "trash"] then
    if containsAny user_message ["email", "mail", "message"] then
      match firstNumber user_message with
      | some n =>
        match params with
        | .dict p => .ok ("delete", .dict { p with email_number := some n })
        | .nonDict _ itemErr => .error itemErr
      | none => .ok ("delete", params)
    else .ok ("unknown", params)
  else .ok ("unknown", params)

/-- Enumerate a list with indices starting at `n` (Python `enumerate(xs, n)`). -/
def enumFrom {α : Type} (n : Nat) : List α → List (Nat × α)
  | [] => []
  | x :: t => (n, x) :: enumFrom (n + 1) t

/-- Body of the per-message loop of `handle_read_emails` (`chatbot.py`
lines 151-194): fetch the full message, read headers, parse the sender
address, decode the body and summarize.  Any fetch failure makes the
iteration `continue`, i.e. produce nothing. -/
def processOne (env : ChatEnv) (m : MsgRef) : Option EmailData :=
  match env.getMessage m.id with
  | .error _ => none
  | .ok message =>
    let sender := get_header message.headers "From"
    let subject := get_header message.headers "Subject"
    let date := get_header message.headers "Date"
    let pa := env.parseaddr sender
    let sender_name := if pa.1 == "" then pa.2 else pa.1
    let summary := generate_email_summary env message.bodyText subject sender_name
    some
      { id := m.id
        thread_id := message.threadId
        sender := sender_name
        sender_email := pa.2
        subject := subject
        date := date
        summary := summary
        snippet := message.snippet }

/-- Text block appended to the read response for one processed email. -/
def emailEntryText (idx : Nat) (d : EmailData) : String :=
  "**Email " ++ toString idx ++ ":**\n" ++
  "From: " ++ d.sender ++ " (" ++ d.sender_email ++ ")\n" ++
  "Subject: " ++ d.subject ++ "\n" ++
  "Summary: " ++ d.summary ++ "\n\n"

/-- Error response of `handle_read_emails` (its outer `except` clause). -/
def readErrorResponse (e : String) : ChatResponse :=
  { response := "Sorry, I couldn't read your emails. Error: " ++ e
    action := some "read"
    data := some (.err e) }

/-- `handle_read_emails` (`chatbot.py` lines 127-208).  Total: every failure
is caught and turned into a `ChatResponse`, including the `AttributeError` a
non-object `parameters` value raises at its first `.get`.  Returns the
response together with the list of external calls performed. -/
def handle_read_emails (env : ChatEnv) (session_id : String) (parameters : ParamsVal) :
    ChatResponse × List CallEv :=
  match get_gmail_service env session_id with
  | .error e => (readErrorResponse (httpDetail e), [])
  | .ok _ =>
    match parameters with
    | .nonDict attrErr _ => (readErrorResponse attrErr, [])
    | .dict parameters =>
    let max_results := parameters.max_results.getD 5
    match env.listMessages none max_results with
    | .error e => (readErrorResponse e, [.gmailList none max_results])
    | .ok messages =>
      if messages.isEmpty then
        ({ response := "You don't have any recent emails in your inbox."
           action := some "read"
           data := some (.emails []) },
         [.gmailList none max_results])
      else
        let emails := messages.filterMap (processOne env)
        let response_text :=
          "Here are your last " ++ toString messages.length ++ " emails:\n\n" ++
          String.join ((enumFrom 1 messages).filterMap
            (fun p => (processOne env p.2).map (emailEntryText p.1)))
        ({ response := response_text, action := some "read", data := some (.emails emails) },
         .gmailList none max_results :: messages.map (fun m => .gmailGet m.id))

/-- Body of the per-id loop of `handle_generate_replies` (`chatbot.py`
lines 248-287): fetch, generate a reply, fall to `continue` on failure. -/
def replyOne (env : ChatEnv) (email_id : String) : Option ReplyData :=
  match env.getMessage email_id with
  | .error _ => none
  | .ok message =>
    let sender := get_header message.headers "From"
    let subject := get_header message.headers "Subject"
    let reply_text := generate_email_reply env sender subject message.bodyText
    let pa := env.parseaddr sender
    some
      { email_id := email_id
        original_subject := subject
        original_sender := if pa.1 == "" then pa.2 else pa.1
        reply := reply_text }

/-- Text block appended to the reply response for one generated reply. -/
def replyEntryText (r : ReplyData) : String :=
  "**Reply for: " ++ r.original_subject ++ "**\n" ++
  "From: " ++ r.original_sender ++ "\n" ++
  "Reply:\n" ++ r.reply ++ "\n\n"

/-- Error response of `handle_generate_replies` (its outer `except` clause). -/
def replyErrorResponse (e : String) : ChatResponse :=
  { response := "Sorry, I couldn't generate replies. Error: " ++ e
    action := some "reply"
    data := some (.err e) }

/-- Final stage of `handle_generate_replies` (lines 239-293): empty-target
response, or the generation loop over the ids with per-id failures skipped. -/
def repliesStage3 (env : ChatEnv) (email_ids : List String) (tr : List CallEv) :
    ChatResponse × List CallEv :=
  if email_ids.isEmpty then
    ({ response := "No emails found to generate replies for."
       action := some "reply"
       data := none },
     tr)
  else
    let replies := email_ids.filterMap (replyOne env)
    let response_text :=
      "Here are the generated replies:\n\n" ++ String.join (replies.map replyEntryText)
    ({ response := response_text, action := some "reply", data := some (.replies replies) },
     tr ++ email_ids.map .gmailGet)

/-- Second stage of `handle_generate_replies` (lines 230-237): when no ids
were determined, list the last 5 emails and take their ids. -/
def repliesStage2 (env : ChatEnv) (email_ids : List String) (tr : List CallEv) :
    ChatResponse × List CallEv :=
  if email_ids.isEmpty then
    match env.listMessages none 5 with
    | .error e => (replyErrorResponse e, tr ++ [.gmailList none 5])
    | .ok messages =>
      repliesStage3 env (messages.map (fun m => m.id)) (tr ++ [.gmailList none 5])
  else repliesStage3 env email_ids tr

/-- `handle_generate_replies` (`chatbot.py` lines 211-301).  Total, including
for a non-object `parameters` value (its first `.get` raises inside the
handler's `try`). -/
def handle_generate_replies (env : ChatEnv) (session_id : String) (parameters : ParamsVal) :
    ChatResponse × List CallEv :=
  match get_gmail_service env session_id with
  | .error e => (replyErrorResponse (httpDetail e), [])
  | .ok _ =>
    match parameters with
    | .nonDict attrErr _ => (replyErrorResponse attrErr, [])
    | .dict parameters =>
    if truthyOptNat parameters.email_number then
      let n := parameters.email_number.getD 0
      match env.listMessages none n with
      | .error e => (replyErrorResponse e, [.gmailList none n])
      | .ok messages =>
        let email_ids :=
          if !messages.isEmpty && decide (messages.length ≥ n) then
            [(messages.getD (n - 1) { id := "", threadId := "" }).id]
          else parameters.email_ids
        repliesStage2 env email_ids [.gmailList none n]
    else
      repliesStage2 env parameters.email_ids []

/-- Error response of `handle_delete_email` (its outer `except` clause). -/
def deleteErrorResponse (e : String) : ChatResponse :=
  { response := "Sorry, I couldn't delete the email. Error: " ++ e
    action := some "delete"
    data := some (.err e) }

/-- Disambiguation prompt of `handle_delete_email` (lines 360-367), returned
when no target criterion was supplied. -/
def deleteDisambiguationResponse : ChatResponse :=
  { response :=
      "Please specify which email to delete. You can delete by:\n" ++
      "- Email number (e.g., 'delete email 2')\n" ++
      "- Sender (e.g., 'delete email from john@example.com')\n" ++
      "- Subject keyword (e.g., 'delete email with subject meeting')"
    action := some "delete"
    data := none }

/-- Final part of `handle_delete_email` (lines 369-396): read the metadata of
the target (falling back to `"Unknown"` on failure), delete it, and report. -/
def deleteFinish (env : ChatEnv) (target_email_id : String) (tr : List CallEv) :
    ChatResponse × List CallEv :=
  let meta :=
    match env.getMessageMeta target_email_id with
    | .ok message =>
      (get_header message.headers "Subject", get_header message.headers "From")
    | .error _ => ("Unknown", "Unknown")
  let tr1 := tr ++ [.gmailGet target_email_id]
  match env.deleteMessage target_email_id with
  | .error e => (deleteErrorResponse e, tr1 ++ [.gmailDelete target_email_id])
  | .ok _ =>
    ({ response :=
        "✅ Successfully deleted email:\n" ++
        "Subject: " ++ meta.1 ++ "\n" ++
        "From: " ++ meta.2
       action := some "delete"
       data := some (.deletedEmailId target_email_id) },
     tr1 ++ [.gmailDelete target_email_id])

/-- `handle_delete_email` (`chatbot.py` lines 304-404).  Total, including for
a non-object `parameters` value.  The target is resolved from the first
truthy criterion in source order (`email_id`, `email_number`, `sender`,
`subject_keyword`); with no criterion the disambiguation prompt is returned
without consulting the mailbox. -/
def handle_delete_email (env : ChatEnv) (session_id : String) (parameters : ParamsVal) :
    ChatResponse × List CallEv :=
  match get_gmail_service env session_id with
  | .error e => (deleteErrorResponse (httpDetail e), [])
  | .ok _ =>
    match parameters with
    | .nonDict attrErr _ => (deleteErrorResponse attrErr, [])
    | .dict parameters =>
    if truthyOptStr parameters.email_id then
      deleteFinish env (parameters.email_id.getD "") []
    else if truthyOptNat parameters.email_number then
      let n := parameters.email_number.getD 0
      match env.listMessages none n with
      | .error e => (deleteErrorResponse e, [.gmailList none n])
      | .ok messages =>
        if messages.isEmpty || decide (messages.length < n) then
          ({ response := "Email number " ++ toString n ++ " not found."
             action := some "delete"
             data := none },
           [.gmailList none n])
        else
          deleteFinish env (messages.getD (n - 1) { id := "", threadId := "" }).id
            [.gmailList none n]
    else if truthyOptStr parameters.sender then
      let s := parameters.sender.getD ""
      let query := "from:" ++ s
      match env.listMessages (some query) 1 with
      | .error e => (deleteErrorResponse e, [.gmailList (some query) 1])
      | .ok messages =>
        if messages.isEmpty then
          ({ response := "No emails found from " ++ s ++ "."
             action := some "delete"
             data := none },
           [.gmailList (some query) 1])
        else
          deleteFinish env (messages.getD 0 { id := "", threadId := "" }).id
            [.gmailList (some query) 1]
    else if truthyOptStr parameters.subject_keyword then
      let kw := parameters.subject_keyword.getD ""
      let query := "subject:\"" ++ kw ++ "\""
      match env.listMessages (some query) 1 with
      | .error e => (deleteErrorResponse e, [.gmailList (some query) 1])
      | .ok messages =>
        if messages.isEmpty then
          ({ response := "No emails found with subject containing '" ++ kw ++ "'."
             action := some "delete"
             data := none },
           [.gmailList (some query) 1])
        else
          deleteFinish env (messages.getD 0 { id := "", threadId := "" }).id
            [.gmailList (some query) 1]
    else
      (deleteDisambiguationResponse, [])

/-- Greeting response of the dispatcher (`chatbot.py` lines 89-97). -/
def greetingResponse : ChatResponse :=
  { response :=
      "Hello! I'm your email assistant. I can help you:\n" ++
      "- Read your recent emails (e.g., 'show me my last 5 emails')\n" ++
      "- Generate AI-powered replies (e.g., 'generate replies for my emails')\n" ++
      "- Delete emails (e.g., 'delete email number 2' or 'delete the latest email from [sender]')\n\n" ++
      "What would you like to do?"
    action := some "greeting"
    data := none }

/-- Help response of the dispatcher (`chatbot.py` lines 98-109). -/
def helpResponse : ChatResponse :=
  { response :=
      "I can help you manage your emails:\n\n" ++
      "📧 **Read Emails**: Ask me to show your recent emails\n" ++
      "  Example: 'Show me my last 5 emails' or 'Read my emails'\n\n" ++
      "✍️ **Generate Replies**: I can create professional replies for your emails\n" ++
      "  Example: 'Generate replies for my emails' or 'Create a reply for email 1'\n\n" ++
      "🗑️ **Delete Emails**: I can delete specific emails\n" ++
      "  Example: 'Delete email number 2' or 'Delete the latest email from john@example.com'\n\n" ++
      "Just tell me what you'd like to do in natural language!"
    action := some "help"
    data := none }

/-- Catch-all response of the dispatcher (`chatbot.py` lines 110-118). -/
def unknownResponse : ChatResponse :=
  { response :=
      "I'm not sure what you'd like to do. Try asking me to:\n" ++
      "- Read your emails\n" ++
      "- Generate replies\n" ++
      "- Delete an email\n" ++
      "Or type 'help' to see all capabilities."
    action := some "unknown"
    data := none }

/-- Intent resolution and dispatch of `process_chat_message` (lines 48-118),
run after the authorization check: the handler / greeting / help / catch-all
chain over a resolved intent.  Total: every handler converts its internal
failures to a `ChatResponse`. -/
def runAction (env : ChatEnv) (user_message session_id : String)
    (resolved : String × ParamsVal) (tr0 : List CallEv) : ChatResponse × List CallEv :=
  if resolved.1 == "read" then
    let h := handle_read_emails env session_id resolved.2
    (h.1, tr0 ++ h.2)
  else if resolved.1 == "reply" then
    let h := handle_generate_replies env session_id resolved.2
    (h.1, tr0 ++ h.2)
  else if resolved.1 == "delete" then
    let h := handle_delete_email env session_id resolved.2
    (h.1, tr0 ++ h.2)
  else if strIn "greeting" user_message || strIn "hello" user_message ||
      strIn "hi" user_message then
    (greetingResponse, tr0)
  else if strIn "help" user_message || strIn "capabilities" user_message then
    (helpResponse, tr0)
  else
    (unknownResponse, tr0)

/-- Intent resolution and dispatch of `process_chat_message` (lines 48-118):
model parse with defaulting, the keyword fallback when the model action is
`"unknown"`, then the dispatch chain.  The only uncaught exception point in
this region is the fallback's item assignment into a non-object `parameters`
value; its `TypeError` reaches the endpoint's outer handler (lines 122-124),
which converts it to `HTTPException(500)`. -/
def dispatchMessage (env : ChatEnv) (message user_message session_id : String) :
    Except HttpError (ChatResponse × List CallEv) :=
  let parsed := resolveParsed env
  match (if parsed.1 == "unknown" then keywordFallback user_message parsed.2
         else .ok parsed) with
  | .error e => .error (.internal ("Error processing message: " ++ e))
  | .ok resolved => .ok (runAction env user_message session_id resolved [.parseNL message])

/-- `process_chat_message`, the `POST /api/chatbot/message` endpoint
(`chatbot.py` lines 31-124).  The session is resolved through
`get_credentials` first; a null credential raises `HTTPException(401)` before
any collaborator is consulted (the returned trace of an error is empty).
With a credential, dispatch runs on the store state left by the resolution;
collaborator failures are caught below the endpoint, while the fallback's
`TypeError` on a non-object model `parameters` value surfaces as the 500 of
the outer `except Exception` clause. -/
def process_chat_message (env : ChatEnv) (message session_id : String) :
    Except HttpError (ChatResponse × List CallEv) :=
  let user_message := strStrip (strLower message)
  match get_credentials env.auth env.fs session_id env.now with
  | (none, _) => .error (.unauthorized "Invalid or expired session")
  | (some _, fs') =>
    dispatchMessage { env with fs := fs' } message user_message session_id

/-! Store lemmas shared by several claims. -/

theorem dictGet_dictInsert_self (l : List (String × UserSession)) (k : String) (v : UserSession) :
    dictGet (dictInsert l k v) k = some v := by
  induction l with
  | nil => simp [dictGet, dictInsert]
  | cons p t ih =>
    cases hp : (p.1 == k) with
    | true => simp [dictInsert, hp, dictGet]
    | false => simp [dictInsert, hp, dictGet, ih]

theorem dictGet_dictInsert_ne (l : List (String × UserSession)) (k k' : String)
    (v : UserSession) (h : k' ≠ k) :
    dictGet (dictInsert l k v) k' = dictGet l k' := by
  have hkk : (k == k') = false := by simp [Ne.symm h]
  induction l with
  | nil => simp [dictGet, dictInsert, hkk]
  | cons p t ih =>
    cases hp : (p.1 == k) with
    | true =>
      have hp' : p.1 = k := by simpa using hp
      simp [dictInsert, hp, dictGet, hkk, hp']
    | false => simp [dictInsert, hp, dictGet, ih]

theorem dictGet_any (l : List (String × UserSession)) (k : String) (s : UserSession)
    (h : dictGet l k = some s) : l.any (fun p => p.1 == k) = true := by
  induction l with
  | nil => simp [dictGet] at h
  | cons p t ih =>
    cases hp : (p.1 == k) with
    | true => simp [List.any_cons, hp]
    | false =>
      simp only [dictGet, hp, Bool.false_eq_true, if_false] at h
      simp [List.any_cons, hp, ih h]

/-- The stored session after a successful refresh inside `get_credentials`:
new access token, conditionally overwritten refresh token, everything else
(including `expires_at`) unchanged. -/
def refreshedSession (s : UserSession) (newToken : String) (issued : Option String) :
    UserSession :=
  { s with
    access_token := newToken
    refresh_token :=
      if truthyOptStr (issued.orElse (fun _ => s.refresh_token)) then
        issued.orElse (fun _ => s.refresh_token)
      else s.refresh_token }

/-- Characterization of the refresh-success path of `get_credentials`: the
refreshed credential is returned and the store holds `refreshedSession`. -/
theorem get_credentials_refresh_success (env : AuthEnv) (fs : FileState) (sid : String)
    (now : Int) (s : UserSession) (newToken : String) (issued : Option String)
    (newExpiry : Int) (hget : get_session fs sid = some s) (hsid : s.session_id = sid)
    (hexp : ¬ s.expires_at < now) (hce : env.credsExpired = true)
    (href : env.refresh = .success newToken issued newExpiry) :
    get_credentials env fs sid now =
      (some { token := newToken
              refresh_token := issued.orElse (fun _ => s.refresh_token)
              expired := false },
       .valid (dictInsert (load_sessions fs) sid (refreshedSession s newToken issued))) := by
  have hany : (load_sessions fs).any (fun p => p.1 == sid) = true :=
    dictGet_any _ _ _ hget
  simp only [get_credentials, hget, hexp, if_false, hce, href, update_session,
    refreshedSession, hsid, hany, if_true]

/-! Concrete fixtures used by counterexamples and witnesses. -/

/-- A stored session fixture. -/
def sessA : UserSession :=
  { session_id := "sid"
    user_email := "old@example.com"
    access_token := "tokA"
    refresh_token := some "rtA"
    expires_at := 100
    created_at := 0 }

/-- A second session fixture with the same `session_id` as `sessA`. -/
def sessB : UserSession :=
  { session_id := "sid"
    user_email := "new@example.com"
    access_token := "tokB"
    refresh_token := some "rtB"
    expires_at := 200
    created_at := 1 }

/-- A store holding exactly `sessA`. -/
def fsA : FileState := .valid [("sid", sessA)]

/-- C5: `create_session` on a store that already holds the `session_id` does
not fail with a duplicate-key error; it silently replaces the existing record
(here `sessA` is replaced by the different record `sessB`). -/
theorem c5_counterexample :
    create_session fsA sessB = .valid [("sid", sessB)] ∧ sessB ≠ sessA := by
  constructor
  · rfl
  · decide

/-- C5 (amended): `create_session` is an upsert: it never fails, after it the
stored record under `session_id` is the new one, and every other key is
untouched. -/
theorem c5_create_upsert (fs : FileState) (s : UserSession) :
    get_session (create_session fs s) s.session_id = some s ∧
    ∀ sid, sid ≠ s.session_id → get_session (create_session fs s) sid = get_session fs sid := by
  constructor
  · exact dictGet_dictInsert_self _ _ _
  · intro sid hne
    exact dictGet_dictInsert_ne _ _ _ _ hne

/-- C5 witness: the amended statement applied to the concrete duplicate
creation. -/
theorem c5_witness :
    get_session (create_session fsA sessB) "sid" = some sessB ∧
    get_session (create_session fsA sessB) "other" = get_session fsA "other" := by
  refine ⟨(c5_create_upsert fsA sessB).1, (c5_create_upsert fsA sessB).2 "other" ?_⟩
  decide

/-- C10: on a store whose file contains invalid JSON, `update_session` does
not rewrite the file from the empty in-memory view: it fails with the
not-found error instead (refuting the claim that a subsequent update rewrites
the file). -/
theorem c10_counterexample :
    update_session FileState.invalidJson sessA = .error "Session sid not found" := by
  rfl

/-- C10 (amended): when the sessions file is missing, unreadable or invalid
JSON, every read treats the store as empty without raising (`get` is
not-found for every id, `listAll` is empty), a subsequent `create` rewrites
the file to contain only the created record — silently discarding all
previously persisted sessions — while `update` fails with not-found rather
than rewriting. -/
theorem c10_corrupted_store (fs : FileState)
    (h : fs = .missing ∨ fs = .unreadable ∨ fs = .invalidJson) :
    load_sessions fs = [] ∧
    (∀ sid, get_session fs sid = none) ∧
    get_all_sessions fs = [] ∧
    (∀ s, create_session fs s = .valid [(s.session_id, s)]) ∧
    (∀ s, update_session fs s = .error ("Session " ++ s.session_id ++ " not found")) := by
  rcases h with h | h | h <;> subst h <;>
    exact ⟨rfl, fun _ => rfl, rfl, fun _ => rfl, fun _ => rfl⟩

/-- C10 witness: the amended statement applied to the invalid-JSON store. -/
theorem c10_witness :
    get_session FileState.invalidJson "sid" = none ∧
    create_session FileState.invalidJson sessB = .valid [("sid", sessB)] := by
  refine ⟨(c10_corrupted_store _ ?_).2.1 "sid", (c10_corrupted_store _ ?_).2.2.2.1 sessB⟩ <;>
    exact Or.inr (Or.inr rfl)

/-- Expired-session fixture for C1: `expires_at` in the past yet a refresh
token is present. -/
def sessExpired : UserSession :=
  { session_id := "sidExp"
    user_email := "user@example.com"
    access_token := "oldTok"
    refresh_token := some "rt"
    expires_at := 0
    created_at := 0 }

/-- A store holding exactly `sessExpired`. -/
def fsExpired : FileState := .valid [("sidExp", sessExpired)]

/-- An environment in which the OAuth library reports the token expired and
the identity provider would answer a refresh successfully. -/
def envRefreshOk : AuthEnv :=
  { credsExpired := true, refresh := .success "newTok" none 1000 }

/-- C1: a stored session whose `expires_at` is in the past and which still has
a `refresh_token` is resolved to null even though the refresh would succeed:
`get_credentials` returns `None` for every date-expired session without
attempting a refresh, refuting the claim's non-null clause. -/
theorem c1_counterexample :
    get_session fsExpired "sidExp" = some sessExpired ∧
    sessExpired.expires_at < 10 ∧
    sessExpired.refresh_token = some "rt" ∧
    envRefreshOk.refresh = .success "newTok" none 1000 ∧
    (get_credentials envRefreshOk fsExpired "sidExp" 10).1 = none := by
  exact ⟨rfl, by decide, rfl, rfl, rfl⟩

/-- C1 (amended): `get_credentials` returns null iff the session is absent, or
its `expires_at` is strictly before now — regardless of any `refresh_token`;
no refresh is attempted for date-expired sessions — or the credential object
reports expired and the refresh fails; it returns a non-null credential when
the session is present and unexpired by `expires_at`, and either no refresh is
needed or the refresh succeeds. -/
theorem c1_resolve_characterization (env : AuthEnv) (fs : FileState) (sid : String)
    (now : Int) :
    (get_session fs sid = none → (get_credentials env fs sid now).1 = none) ∧
    (∀ s, get_session fs sid = some s → s.expires_at < now →
      (get_credentials env fs sid now).1 = none) ∧
    (∀ s, get_session fs sid = some s → ¬ s.expires_at < now → env.credsExpired = false →
      (get_credentials env fs sid now).1 =
        some { token := s.access_token, refresh_token := s.refresh_token, expired := false }) ∧
    (∀ s msg, get_session fs sid = some s → ¬ s.expires_at < now → env.credsExpired = true →
      env.refresh = .failure msg → (get_credentials env fs sid now).1 = none) ∧
    (∀ s newToken issued newExpiry, get_session fs sid = some s → s.session_id = sid →
      ¬ s.expires_at < now → env.credsExpired = true →
      env.refresh = .success newToken issued newExpiry →
      (get_credentials env fs sid now).1 =
        some { token := newToken
               refresh_token := issued.orElse (fun _ => s.refresh_token)
               expired := false }) := by
  refine ⟨?_, ?_, ?_, ?_, ?_⟩
  · intro hget
    simp [get_credentials, hget]
  · intro s hget hlt
    simp [get_credentials, hget, hlt]
  · intro s hget hexp hce
    simp [get_credentials, hget, hexp, hce]
  · intro s msg hget hexp hce href
    simp [get_credentials, hget, hexp, hce, href]
  · intro s newToken issued newExpiry hget hsid hexp hce href
    rw [get_credentials_refresh_success env fs sid now s newToken issued newExpiry hget hsid
      hexp hce href]

/-- C1 witness: the amended characterization applied to the date-expired
fixture (null result) and to an unexpired session with no refresh needed
(non-null result). -/
theorem c1_witness :
    (get_credentials envRefreshOk fsExpired "sidExp" 10).1 = none ∧
    (get_credentials { credsExpired := false, refresh := .failure "e" } fsA "sid" 10).1 =
      some { token := "tokA", refresh_token := some "rtA", expired := false } := by
  constructor
  · exact (c1_resolve_characterization envRefreshOk fsExpired "sidExp" 10).2.1
      sessExpired rfl (by decide)
  · exact (c1_resolve_characterization _ fsA "sid" 10).2.2.1 sessA rfl (by decide) rfl

/-- After the refresh-success path, the stored record under the session id is
exactly `refreshedSession` (shared by the write-back claims). -/
theorem get_session_after_refresh (env : AuthEnv) (fs : FileState) (sid : String)
    (now : Int) (s : UserSession) (newToken : String) (issued : Option String)
    (newExpiry : Int) (hget : get_session fs sid = some s) (hsid : s.session_id = sid)
    (hexp : ¬ s.expires_at < now) (hce : env.credsExpired = true)
    (href : env.refresh = .success newToken issued newExpiry) :
    get_session (get_credentials env fs sid now).2 sid =
      some (refreshedSession s newToken issued) := by
  rw [get_credentials_refresh_success env fs sid now s newToken issued newExpiry hget hsid
    hexp hce href]
  exact dictGet_dictInsert_self _ _ _

/-- Environment for the C2 refresh run: refresh needed and succeeding, the new
token expiring at 999. -/
def envNewExpiry : AuthEnv :=
  { credsExpired := true, refresh := .success "tokNew" none 999 }

/-- C2: after a successful refresh the stored `expires_at` is not the expiry
of the newly stored access token: the provider reported expiry 999 for the
new token, yet the write-back stored the new `access_token` together with the
stale `expires_at` 100 of the previous token. -/
theorem c2_counterexample :
    envNewExpiry.refresh = .success "tokNew" none 999 ∧
    get_session (get_credentials envNewExpiry fsA "sid" 10).2 "sid" =
      some { sessA with access_token := "tokNew" } ∧
    sessA.expires_at = 100 ∧
    ({ sessA with access_token := "tokNew" } : UserSession).expires_at ≠ 999 := by
  exact ⟨rfl, rfl, rfl, by decide⟩

/-- C2 (amended): the refresh write-back updates `access_token` (and
conditionally `refresh_token`) but never touches `expires_at`: after every
successful refresh the stored `expires_at` still equals its pre-refresh value
— the expiry of the previous token, not of the new one. -/
theorem c2_refresh_writeback (env : AuthEnv) (fs : FileState) (sid : String) (now : Int)
    (s : UserSession) (newToken : String) (issued : Option String) (newExpiry : Int)
    (hget : get_session fs sid = some s) (hsid : s.session_id = sid)
    (hexp : ¬ s.expires_at < now) (hce : env.credsExpired = true)
    (href : env.refresh = .success newToken issued newExpiry) :
    get_session (get_credentials env fs sid now).2 sid =
      some (refreshedSession s newToken issued) ∧
    (refreshedSession s newToken issued).access_token = newToken ∧
    (refreshedSession s newToken issued).expires_at = s.expires_at := by
  exact ⟨get_session_after_refresh env fs sid now s newToken issued newExpiry hget hsid hexp
    hce href, rfl, rfl⟩

/-- C2 witness: the amended statement applied to the concrete refresh run. -/
theorem c2_witness :
    get_session (get_credentials envNewExpiry fsA "sid" 10).2 "sid" =
      some (refreshedSession sessA "tokNew" none) ∧
    (refreshedSession sessA "tokNew" none).access_token = "tokNew" ∧
    (refreshedSession sessA "tokNew" none).expires_at = sessA.expires_at :=
  c2_refresh_writeback envNewExpiry fsA "sid" 10 sessA "tokNew" none 999 rfl rfl
    (by decide) rfl rfl

/-- C9: after every successful refresh in which the provider omitted a new
refresh token, the stored `refresh_token` is preserved unchanged; and the
stored `refresh_token` differs from the previous one only when the provider
issued a new, non-empty one. -/
theorem c9_refresh_token_preserved :
    (∀ (env : AuthEnv) (fs : FileState) (sid : String) (now : Int) (s : UserSession)
      (newToken : String) (newExpiry : Int),
      get_session fs sid = some s → s.session_id = sid → ¬ s.expires_at < now →
      env.credsExpired = true → env.refresh = .success newToken none newExpiry →
      ∃ s', get_session (get_credentials env fs sid now).2 sid = some s' ∧
        s'.refresh_token = s.refresh_token ∧ s'.access_token = newToken) ∧
    (∀ (s : UserSession) (newToken : String) (issued : Option String),
      (refreshedSession s newToken issued).refresh_token ≠ s.refresh_token →
      ∃ t, issued = some t ∧ t ≠ "") := by
  constructor
  · intro env fs sid now s newToken newExpiry hget hsid hexp hce href
    refine ⟨refreshedSession s newToken none,
      get_session_after_refresh env fs sid now s newToken none newExpiry hget hsid hexp hce
        href, ?_, rfl⟩
    simp [refreshedSession, Option.orElse]
  · intro s newToken issued hchanged
    match issued with
    | none =>
      exfalso
      apply hchanged
      simp [refreshedSession, Option.orElse]
    | some t =>
      refine ⟨t, rfl, ?_⟩
      intro hte
      apply hchanged
      subst hte
      simp [refreshedSession, Option.orElse, truthyOptStr]

/-- C9 witness: both parts applied at concrete inputs: an omitted provider
refresh token leaves `sessA`'s stored refresh token unchanged, and a changed
stored refresh token implies a non-empty issued one. -/
theorem c9_witness :
    (∃ s', get_session (get_credentials envNewExpiry fsA "sid" 10).2 "sid" = some s' ∧
      s'.refresh_token = sessA.refresh_token ∧ s'.access_token = "tokNew") ∧
    (∃ t, (some "rtNew" : Option String) = some t ∧ t ≠ "") := by
  constructor
  · exact c9_refresh_token_preserved.1 envNewExpiry fsA "sid" 10 sessA "tokNew" 999 rfl rfl
      (by decide) rfl rfl
  · exact c9_refresh_token_preserved.2 sessA "tokNew" (some "rtNew") (by decide)

/-! Chat fixtures: an environment whose session resolves (auth passes) but
whose collaborators all fail, one where the session does not resolve, and a
partial-failure mailbox for the read batch. -/

/-- Credential resolved from `sessA` with no refresh needed. -/
def crA : Credentials := { token := "tokA", refresh_token := some "rtA", expired := false }

/-- Environment whose session store holds `sessA` (valid at `now = 10`) and
whose model and mailbox collaborators all fail. -/
def envOffline : ChatEnv :=
  { auth := { credsExpired := false, refresh := .failure "offline" }
    fs := fsA
    now := 10
    parseCommand := .error "model unavailable"
    listMessages := fun _ _ => .error "gmail unavailable"
    getMessage := fun _ => .error "gmail unavailable"
    getMessageMeta := fun _ => .error "gmail unavailable"
    deleteMessage := fun _ => .error "gmail unavailable"
    groqSummary := fun _ _ _ => .error "model unavailable"
    groqReply := fun _ _ _ => .error "model unavailable"
    parseaddr := fun s => ("", s) }

/-- Environment with an empty session store: no session resolves. -/
def envNoAuth : ChatEnv := { envOffline with fs := .valid [] }

/-- Three listed messages for the C7 read batch. -/
def msgs3 : List MsgRef :=
  [{ id := "m1", threadId := "t1" }, { id := "m2", threadId := "t2" },
   { id := "m3", threadId := "t3" }]

/-- Environment for the C7 read batch: three listed messages, fetching the
second fails, everything else succeeds. -/
def envPartial : ChatEnv :=
  { envOffline with
    listMessages := fun _ _ => .ok msgs3
    getMessage := fun i =>
      if i == "m2" then .error "boom"
      else
        .ok { id := i
              threadId := some "t"
              headers := [("From", "Alice <alice@example.com>"), ("Subject", "Hi"),
                          ("Date", "Mon, 1 Jan 2024")]
              bodyText := "Body"
              snippet := "Snip" }
    groqSummary := fun _ _ _ => .ok "Sum"
    parseaddr := fun _ => ("Alice", "alice@example.com") }

/-- A successfully processed email keeps the id of its listing entry. -/
theorem processOne_id (env : ChatEnv) (m : MsgRef) (d : EmailData)
    (h : processOne env m = some d) : d.id = m.id := by
  unfold processOne at h
  cases hg : env.getMessage m.id with
  | error e => rw [hg] at h; simp at h
  | ok msg =>
    rw [hg] at h
    simp only [Option.some.injEq] at h
    subst h
    rfl

/-- The ids of the successfully processed emails form a sublist of the listed
ids: per-message failures drop entries without reordering the rest. -/
theorem filterMap_ids_sublist (env : ChatEnv) (l : List MsgRef) :
    List.Sublist ((l.filterMap (processOne env)).map EmailData.id) (l.map MsgRef.id) := by
  induction l with
  | nil => simp
  | cons m t ih =>
    cases h : processOne env m with
    | none =>
      simp only [List.filterMap_cons, h, List.map_cons]
      exact ih.cons _
    | some d =>
      simp only [List.filterMap_cons, h, List.map_cons, processOne_id env m d h]
      exact ih.cons₂ _

/-- C4: when the session does not resolve to a credential, the chat endpoint
answers exactly the 401 unauthorized error, for every message and every
collaborator behaviour: the result is a constant that depends on neither the
intent-parsing oracle nor the message text, so no intent parsing and no
keyword matching is performed (the error carries no external-call trace). -/
theorem c4_unauthorized_before_intent (env : ChatEnv) (message session_id : String)
    (hcred : (get_credentials env.auth env.fs session_id env.now).1 = none) :
    process_chat_message env message session_id =
      .error (.unauthorized "Invalid or expired session") := by
  rcases hgc : get_credentials env.auth env.fs session_id env.now with ⟨copt, fs2⟩
  rw [hgc] at hcred
  simp only at hcred
  subst hcred
  simp [process_chat_message, hgc]

/-- C4 witness: a request against an empty session store is answered 401. -/
theorem c4_witness :
    process_chat_message envNoAuth "delete email 2" "sid" =
      .error (.unauthorized "Invalid or expired session") :=
  c4_unauthorized_before_intent envNoAuth "delete email 2" "sid" rfl

/-- The keyword fallback never raises when the model's `parameters` value is
an object: every branch returns a command. -/
theorem keywordFallback_dict (um : String) (p : Params) :
    ∃ r, keywordFallback um (ParamsVal.dict p) = .ok r := by
  unfold keywordFallback
  repeat' split
  all_goals try exact ⟨_, rfl⟩
  all_goals simp_all

/-- The model response's `parameters` entry, when present, is a JSON object. -/
def paramsIsDict : ModelJson → Bool
  | .obj _ (some (.nonDict _ _)) => false
  | _ => true

/-- The model oracle either fails (recovered inside `ai.py`) or returns a JSON
value whose `parameters` entry, if present, is an object. -/
def modelParamsOk (env : ChatEnv) : Bool :=
  match env.parseCommand with
  | .ok v => paramsIsDict v
  | .error _ => true

/-- A non-object `parameters` value in the resolved command can only come from
a successful model response carrying one. -/
theorem resolveParsed_nonDict (env : ChatEnv) (a x y : String)
    (h : resolveParsed env = (a, .nonDict x y)) : modelParamsOk env = false := by
  unfold resolveParsed parse_natural_language_command at h
  unfold modelParamsOk
  cases henv : env.parseCommand with
  | error e =>
    rw [henv] at h
    simp at h
  | ok v =>
    rw [henv] at h
    cases v with
    | nonObj => simp at h
    | obj oa op =>
      cases op with
      | none => simp at h
      | some pv =>
        cases pv with
        | dict p => simp at h
        | nonDict u w => rfl

/-- Dispatch succeeds whenever the model's `parameters` value (if present) is
an object. -/
theorem dispatchMessage_ok (env : ChatEnv) (message um sid : String)
    (hok : modelParamsOk env = true) :
    ∃ out, dispatchMessage env message um sid = .ok out := by
  rcases hp : resolveParsed env with ⟨act, pv⟩
  simp only [dispatchMessage, hp]
  cases hb : (act == "unknown") with
  | false => simp only [Bool.false_eq_true, if_false]; exact ⟨_, rfl⟩
  | true =>
    simp only [if_true]
    cases pv with
    | dict p =>
      obtain ⟨r, hr⟩ := keywordFallback_dict um p
      rw [hr]
      exact ⟨_, rfl⟩
    | nonDict x y =>
      rw [resolveParsed_nonDict env act x y hp] at hok
      exact absurd hok (by simp)

/-- Every dispatch error is the 500 produced by the fallback's item assignment
into a non-object model `parameters` value. -/
theorem dispatchMessage_error (env : ChatEnv) (message um sid : String) (e : HttpError)
    (h : dispatchMessage env message um sid = .error e) :
    modelParamsOk env = false ∧ ∃ d, e = .internal d := by
  rcases hp : resolveParsed env with ⟨act, pv⟩
  simp only [dispatchMessage, hp] at h
  cases hb : (act == "unknown") with
  | false =>
    rw [hb] at h
    simp at h
  | true =>
    rw [hb] at h
    simp only [if_true] at h
    cases pv with
    | dict p =>
      obtain ⟨r, hr⟩ := keywordFallback_dict um p
      rw [hr] at h
      simp at h
    | nonDict x y =>
      refine ⟨resolveParsed_nonDict env act x y hp, ?_⟩
      cases hf : keywordFallback um (.nonDict x y) with
      | ok r => rw [hf] at h; simp at h
      | error e' =>
        rw [hf] at h
        simp only [Except.error.injEq] at h
        exact ⟨_, h.symm⟩

/-- Environment whose model answers with valid JSON whose `parameters` value
is a string rather than an object; the constructor carries the texts of the
exceptions Python raises when that value is used as a dict. -/
def envIllTyped : ChatEnv :=
  { envOffline with
    parseCommand :=
      .ok (.obj (some "unknown")
        (some (.nonDict "'str' object has no attribute 'get'"
          "'str' object does not support item assignment"))) }

/-- C3: the endpoint can fail hard after the authorization check: with a valid
session, a model response that is valid JSON with a non-object `parameters`
value, and a message matching the delete fallback rule with a digit present,
the fallback's item assignment raises `TypeError`, which the endpoint's outer
handler converts to `HTTPException(500)` — refuting the claim that every
internal failure becomes a response-with-error-payload. -/
theorem c3_counterexample :
    ((get_credentials envIllTyped.auth envIllTyped.fs "sid" envIllTyped.now).1).isSome
      = true ∧
    process_chat_message envIllTyped "delete email 2" "sid" =
      .error (.internal
        "Error processing message: 'str' object does not support item assignment") :=
  ⟨rfl, rfl⟩

/-- C3 (amended): once the session resolves to a credential, the chat endpoint
returns an HTTP-success response with a descriptive body for every message and
every collaborator failure mode, provided the model's `parameters` value, when
present, is a JSON object; the only post-authorization hard failure is the 500
arising from the keyword fallback's numeric item assignment into a non-object
model `parameters` value. -/
theorem c3_no_hard_failure (env : ChatEnv) (message session_id : String)
    (hcred : ((get_credentials env.auth env.fs session_id env.now).1).isSome = true) :
    (modelParamsOk env = true →
      ∃ out, process_chat_message env message session_id = .ok out) ∧
    (∀ e, process_chat_message env message session_id = .error e →
      modelParamsOk env = false ∧ ∃ d, e = .internal d) := by
  rcases hgc : get_credentials env.auth env.fs session_id env.now with ⟨copt, fs2⟩
  rw [hgc] at hcred
  cases copt with
  | none => simp at hcred
  | some c =>
    have henv : modelParamsOk { env with fs := fs2 } = modelParamsOk env := rfl
    constructor
    · intro hok
      obtain ⟨out, hout⟩ := dispatchMessage_ok { env with fs := fs2 } message
        (strStrip (strLower message)) session_id (by rw [henv]; exact hok)
      exact ⟨out, by simp only [process_chat_message, hgc]; exact hout⟩
    · intro e he
      have he' : dispatchMessage { env with fs := fs2 } message
          (strStrip (strLower message)) session_id = .error e := by
        simpa only [process_chat_message, hgc] using he
      obtain ⟨hbad, hd⟩ := dispatchMessage_error _ _ _ _ _ he'
      exact ⟨by rw [← henv]; exact hbad, hd⟩

/-- C3 witness: with a valid session, a failing model and every mailbox
collaborator failing, the endpoint still answers HTTP-success. -/
theorem c3_witness :
    ∃ out, process_chat_message envOffline "read my emails" "sid" = .ok out :=
  (c3_no_hard_failure envOffline "read my emails" "sid" rfl).1 rfl

/-- C6: with the model-based resolution failed or unknown, the keyword
fallback resolves the three specified inputs as claimed; rules apply
first-match-wins in source order (a message matching both the read and the
delete rule resolves to read), and the numeric extraction takes the first
decimal number left to right.  The `"hello"` input flows through to the
dispatcher's greeting branch, so the returned action is `"greeting"`. -/
theorem c6_keyword_fallback :
    keywordFallback "please show me my last 3 emails" (.dict {}) =
      .ok ("read", .dict { max_results := some 3 }) ∧
    keywordFallback "delete email number 2" (.dict {}) =
      .ok ("delete", .dict { email_number := some 2 }) ∧
    (∃ out, process_chat_message envOffline "hello" "sid" = .ok out ∧
      out.1.action = some "greeting") ∧
    keywordFallback "show and delete my email 4" (.dict {}) =
      .ok ("read", .dict { max_results := some 4 }) ∧
    keywordFallback "delete emails 7 and 12" (.dict {}) =
      .ok ("delete", .dict { email_number := some 7 }) :=
  ⟨rfl, rfl, ⟨_, rfl, rfl⟩, rfl, rfl⟩

/-- C7: a read batch never fails hard and keeps exactly the successfully
processed entries in listing order: the response data is the `filterMap` of
the per-message pipeline over the listing, its ids form a sublist of the
listed ids, and an entry is present iff its message processed successfully.
Concretely, for three listed messages with the second one failing to fetch,
the response holds exactly two entries, in the original relative order. -/
theorem c7_read_batch_order :
    (∀ (env : ChatEnv) (session_id : String) (parameters : Params) (cr : Credentials)
      (msgs : List MsgRef),
      get_gmail_service env session_id = .ok cr →
      env.listMessages none (parameters.max_results.getD 5) = .ok msgs →
      ∃ es, (handle_read_emails env session_id (.dict parameters)).1.data =
          some (.emails es) ∧
        es = msgs.filterMap (processOne env) ∧
        List.Sublist (es.map EmailData.id) (msgs.map MsgRef.id) ∧
        ∀ d, d ∈ es ↔ ∃ m ∈ msgs, processOne env m = some d) ∧
    (∃ es, (handle_read_emails envPartial "sid" (.dict {})).1.data = some (.emails es) ∧
      es.map EmailData.id = ["m1", "m3"]) := by
  constructor
  · intro env session_id parameters cr msgs hsvc hlist
    refine ⟨msgs.filterMap (processOne env), ?_, rfl, filterMap_ids_sublist env msgs,
      fun d => List.mem_filterMap⟩
    cases msgs with
    | nil => simp [handle_read_emails, hsvc, hlist]
    | cons m t => simp [handle_read_emails, hsvc, hlist]
  · exact ⟨_, rfl, rfl⟩

/-- C7 witness: the general statement applied to the concrete three-message
batch whose second fetch fails. -/
theorem c7_witness :
    ∃ es, (handle_read_emails envPartial "sid" (.dict {})).1.data = some (.emails es) ∧
      es = msgs3.filterMap (processOne envPartial) ∧
      List.Sublist (es.map EmailData.id) (msgs3.map MsgRef.id) ∧
      ∀ d, d ∈ es ↔ ∃ m ∈ msgs3, processOne envPartial m = some d :=
  c7_read_batch_order.1 envPartial "sid" {} crA msgs3 rfl rfl

/-- C8: a delete intent with no resolvable target criterion yields the
disambiguation prompt with no mailbox call at all and no error payload; and a
sender or subject criterion matching no messages yields the descriptive
response, with only the one search listing performed — no delete call — and
no error payload. -/
theorem c8_delete_disambiguation :
    (∀ (env : ChatEnv) (session_id : String) (p : Params) (cr : Credentials),
      get_gmail_service env session_id = .ok cr →
      truthyOptStr p.email_id = false → truthyOptNat p.email_number = false →
      truthyOptStr p.sender = false → truthyOptStr p.subject_keyword = false →
      handle_delete_email env session_id (.dict p) = (deleteDisambiguationResponse, [])) ∧
    (∀ (env : ChatEnv) (session_id : String) (p : Params) (cr : Credentials) (s : String),
      get_gmail_service env session_id = .ok cr →
      truthyOptStr p.email_id = false → truthyOptNat p.email_number = false →
      p.sender = some s → s ≠ "" →
      env.listMessages (some ("from:" ++ s)) 1 = .ok [] →
      handle_delete_email env session_id (.dict p) =
        ({ response := "No emails found from " ++ s ++ "."
           action := some "delete"
           data := none },
         [.gmailList (some ("from:" ++ s)) 1])) ∧
    (∀ (env : ChatEnv) (session_id : String) (p : Params) (cr : Credentials) (kw : String),
      get_gmail_service env session_id = .ok cr →
      truthyOptStr p.email_id = false → truthyOptNat p.email_number = false →
      truthyOptStr p.sender = false → p.subject_keyword = some kw → kw ≠ "" →
      env.listMessages (some ("subject:\"" ++ kw ++ "\"")) 1 = .ok [] →
      handle_delete_email env session_id (.dict p) =
        ({ response := "No emails found with subject containing '" ++ kw ++ "'."
           action := some "delete"
           data := none },
         [.gmailList (some ("subject:\"" ++ kw ++ "\"")) 1])) := by
  refine ⟨?_, ?_, ?_⟩
  · intro env session_id p cr hsvc hid hnum hsender hsubj
    simp [handle_delete_email, hsvc, hid, hnum, hsender, hsubj]
  · intro env session_id p cr s hsvc hid hnum hsender hsne hlist
    have hstruthy : truthyOptStr p.sender = true := by
      rw [hsender]; simp [truthyOptStr, hsne]
    have hgetd : p.sender.getD "" = s := by rw [hsender]; rfl
    simp [handle_delete_email, hsvc, hid, hnum, hstruthy, hgetd, hlist]
  · intro env session_id p cr kw hsvc hid hnum hsender hsubj hkwne hlist
    have hktruthy : truthyOptStr p.subject_keyword = true := by
      rw [hsubj]; simp [truthyOptStr, hkwne]
    have hgetd : p.subject_keyword.getD "" = kw := by rw [hsubj]; rfl
    simp [handle_delete_email, hsvc, hid, hnum, hsender, hktruthy, hgetd, hlist]

/-- Environment for the C8 witness: valid session, every search listing
returns no matches. -/
def envNoMatches : ChatEnv := { envOffline with listMessages := fun _ _ => .ok [] }

/-- C8 witness: the no-criterion and the sender-no-match cases applied at
concrete inputs. -/
theorem c8_witness :
    handle_delete_email envOffline "sid" (.dict {}) = (deleteDisambiguationResponse, []) ∧
    handle_delete_email envNoMatches "sid" (.dict { sender := some "bob@example.com" }) =
      ({ response := "No emails found from bob@example.com."
         action := some "delete"
         data := none },
       [.gmailList (some "from:bob@example.com") 1]) := by
  constructor
  · exact c8_delete_disambiguation.1 envOffline "sid" {} crA rfl rfl rfl rfl rfl
  · exact c8_delete_disambiguation.2.1 envNoMatches "sid" { sender := some "bob@example.com" }
      crA "bob@example.com" rfl rfl rfl rfl (by decide) rfl

end EmailAssistant
